import Mathlib

/-!
Verification of the `sgui` navigation engine (src/src/lib.rs, src/src/layout.rs).

The engine's data model (`Layout`, `Tab`, `Item`), its focus state (`Gui`),
and one iteration of the `Gui::get_ev` event loop are embedded shallowly.
Machine integers: Rust `i32` positions become `Int` (no overflow is reachable
for the grid sizes at stake), `usize` indices become `Nat`, the `u128` item id
becomes `Nat`.  Channel polling is modelled by passing the event each queue
would yield this iteration (`Option`), and, for queue-consumption claims, by
explicit lists.
-/

namespace SGui

/-- `layout.rs`: `enum Item`. -/
inductive Item where
  | Text : String → Item
  | StatefulButton : String → Bool → Nat → Item
  | StatelessButton : String → Nat → Item
deriving DecidableEq

/-- `layout.rs`: `struct Tab { name, item_grid }`. -/
structure Tab where
  name : String
  item_grid : List (List Item)
deriving DecidableEq

/-- `layout.rs`: `struct Layout { tabs }`. -/
structure Layout where
  tabs : List Tab
deriving DecidableEq

/-- `layout.rs`: `Layout::tab_count` = `self.tabs.len() as i32 - 1`. -/
def Layout.tab_count (l : Layout) : Int :=
  (l.tabs.length : Int) - 1

/-- `layout.rs`: `Layout::tab` = `self.tabs.get(number)` (bounds-checked). -/
def Layout.tab (l : Layout) (number : Nat) : Option Tab :=
  l.tabs[number]?

/-- `layout.rs`: `Tab::items` accessor. -/
def Tab.items (t : Tab) : List (List Item) :=
  t.item_grid

/-- `lib.rs`: `enum GuiEvent` (semantic events returned to the caller). -/
inductive GuiEvent where
  | ItemSelected : String → GuiEvent
  | StatefulButtonChange : String → Bool → Nat → GuiEvent
  | StatelessButtonPress : String → Nat → GuiEvent
  | TabChanged : String → GuiEvent
  | Quit : GuiEvent
deriving DecidableEq

/-- `lib.rs`: `enum HidEvent` (normalized device input). -/
inductive HidEvent where
  | Up | Down | Left | Right | NextTab | PreviousTab | ButtonPress | Quit
deriving DecidableEq

/-- `lib.rs`: `enum RendererEvent`. -/
inductive RendererEvent where
  | Refresh : RendererEvent
  | WindowClosed : RendererEvent
  | Hid : HidEvent → RendererEvent
deriving DecidableEq

/-- `lib.rs`: the engine state of `struct Gui` that the event loop reads and
writes (renderer handle, palette and channel handles carry no loop state). -/
structure Gui where
  layout : Layout
  tab_pos : Int
  item_pos : Nat × Nat
  ignore_hid : Bool
deriving DecidableEq

/-- Rust `i32::clamp`: `max lo (min x hi)` (callers here always have `lo ≤ hi`,
so no panic branch is reachable). -/
def iclamp (x lo hi : Int) : Int :=
  max lo (min x hi)

/-- `self.tab_pos as usize` followed by `tabs.get`: a negative `i32` cast to
`usize` wraps far past any real list length, so the lookup misses. -/
def Layout.tabAt (l : Layout) (i : Int) : Option Tab :=
  if i < 0 then none else l.tab i.toNat

/-- Item lookup at `(tab, row, column)`, the triple dereference of
`tab → items()[row] → [col]` in `get_ev`. -/
def Layout.itemAt (l : Layout) (tp : Int) (r c : Nat) : Option Item :=
  match l.tabAt tp with
  | none => none
  | some tab =>
    match tab.item_grid[r]? with
    | none => none
    | some row => row[c]?

/-- Write `it` at `(tp, r, c)`; used by the stateful-button toggle. -/
def Layout.setItem (l : Layout) (tp : Int) (r c : Nat) (it : Item) : Layout :=
  match l.tabAt tp with
  | none => l
  | some tab =>
    match tab.item_grid[r]? with
    | none => l
    | some row =>
      ⟨l.tabs.set tp.toNat { tab with item_grid := tab.item_grid.set r (row.set c it) }⟩

/-- `lib.rs` lines 174–193: the `activate_selection` block.  Returns the
(possibly) mutated layout, the event assigned to `ret` (if any), and whether
`redraw_items` was set. -/
def activateAt (l : Layout) (tp : Int) (pos : Nat × Nat) :
    Layout × Option GuiEvent × Bool :=
  match l.tabAt tp with
  | none => (l, none, false)
  | some tab =>
    match tab.item_grid[pos.1]? with
    | none => (l, none, false)
    | some row =>
      match row[pos.2]? with
      | none => (l, none, false)
      | some (Item.StatefulButton text state id) =>
        (l.setItem tp pos.1 pos.2 (Item.StatefulButton text (!state) id),
         some (GuiEvent.StatefulButtonChange text (!state) id), true)
      | some (Item.StatelessButton text id) =>
        (l, some (GuiEvent.StatelessButtonPress text id), false)
      | some (Item.Text _) => (l, none, false)

/-- `lib.rs` lines 210–225: the `item_row_chg` block.  Returns the new
`item_pos` and whether `redraw_items` was set (the move committed). -/
def rowMove (l : Layout) (tp : Int) (pos : Nat × Nat) (chg : Int) :
    (Nat × Nat) × Bool :=
  match l.tabAt tp with
  | none => (pos, false)
  | some curtab =>
    let max_row : Int := iclamp ((curtab.items.length : Int) - 1) 0 10000
    let new_cur_row : Nat := (iclamp ((pos.1 : Int) + chg) 0 max_row).toNat
    match curtab.items[new_cur_row]? with
    | none => (pos, false)
    | some row =>
      match row[pos.2]? with
      | none => (pos, false)
      | some _ => ((new_cur_row, pos.2), true)

/-- `lib.rs` lines 227–243: the `item_column_chg` block.  Returns the new
`item_pos` and whether `redraw_items` was set (always, when the tab resolves). -/
def colMove (l : Layout) (tp : Int) (pos : Nat × Nat) (chg : Int) :
    (Nat × Nat) × Bool :=
  match l.tabAt tp with
  | none => (pos, false)
  | some curtab =>
    let new_cur_column : Nat :=
      match curtab.items[pos.1]? with
      | some row =>
        let max_column : Int := iclamp ((row.length : Int) - 1) 0 10000
        (iclamp ((pos.2 : Int) + chg) 0 max_column).toNat
      | none => 0
    ((pos.1, new_cur_column), true)

/-- The observable outcome of one iteration of the `loop` in `Gui::get_ev`:
the updated engine state, the value of `ret` when line 257 is reached (the
call returns iff it is `some`), and the two dirty flags that decide the
`draw_tab_header` / `draw_items` calls. -/
structure StepResult where
  gui : Gui
  ret : Option GuiEvent
  redraw_tabs : Bool
  redraw_items : Bool
deriving DecidableEq

/-- One iteration of the `loop` in `Gui::get_ev` (`lib.rs` lines 122–262).
`devEv` is what `hid_rx.recv_timeout` yields this iteration; `renEv` is what
`renderer_rx.recv_timeout` would yield — it is only consulted when `devEv`
is `none`, exactly as in the source. -/
def Gui.step (g : Gui) (devEv : Option HidEvent) (renEv : Option RendererEvent) :
    StepResult :=
  -- lines 134–157: poll the device queue, then (only on a miss) the renderer
  -- queue; a renderer event is received and then discarded when `ignore_hid`.
  let sel : Option HidEvent × Option GuiEvent × Bool × Bool :=
    match devEv with
    | some e => (some e, none, false, false)
    | none =>
      match renEv with
      | none => (none, none, false, false)
      | some r =>
        if g.ignore_hid then (none, none, false, false)
        else
          match r with
          | RendererEvent.Refresh => (none, none, true, true)
          | RendererEvent.WindowClosed => (none, some GuiEvent.Quit, false, false)
          | RendererEvent.Hid e => (some e, none, false, false)
  let hid_ev := sel.1
  let ret0 := sel.2.1
  let redraw_tabs0 := sel.2.2.1
  let redraw_items0 := sel.2.2.2
  -- lines 159–172: decode the logical input (discarded when `ignore_hid`)
  let act : Int × Int × Int × Bool × Option GuiEvent :=
    match hid_ev with
    | none => (0, 0, 0, false, ret0)
    | some e =>
      if g.ignore_hid then (0, 0, 0, false, ret0)
      else
        match e with
        | HidEvent.NextTab => (1, 0, 0, false, ret0)
        | HidEvent.PreviousTab => (-1, 0, 0, false, ret0)
        | HidEvent.Up => (0, -1, 0, false, ret0)
        | HidEvent.Down => (0, 1, 0, false, ret0)
        | HidEvent.Left => (0, 0, -1, false, ret0)
        | HidEvent.Right => (0, 0, 1, false, ret0)
        | HidEvent.ButtonPress => (0, 0, 0, true, ret0)
        | HidEvent.Quit => (0, 0, 0, false, some GuiEvent.Quit)
  let tab_chg := act.1
  let item_row_chg := act.2.1
  let item_column_chg := act.2.2.1
  let activate_selection := act.2.2.2.1
  let ret1 := act.2.2.2.2
  -- lines 174–193: activation
  let a : Layout × Option GuiEvent × Bool :=
    if activate_selection then activateAt g.layout g.tab_pos g.item_pos
    else (g.layout, none, false)
  let layout1 := a.1
  let ret2 : Option GuiEvent :=
    match a.2.1 with
    | some ev => some ev
    | none => ret1
  let redraw_items1 := redraw_items0 || a.2.2
  -- lines 196–208: tab change (`TabChanged` always carries the literal "todo")
  let tab_pos1 : Int :=
    if tab_chg ≠ 0 then iclamp (g.tab_pos + tab_chg) 0 layout1.tab_count
    else g.tab_pos
  let item_pos1 : Nat × Nat := if tab_chg ≠ 0 then (0, 0) else g.item_pos
  let redraw_tabs1 := redraw_tabs0 || decide (tab_chg ≠ 0)
  let redraw_items2 := redraw_items1 || decide (tab_chg ≠ 0)
  let ret3 : Option GuiEvent :=
    if tab_chg ≠ 0 then
      if tab_chg = 1 then some (GuiEvent.TabChanged "todo")
      else if tab_chg = -1 then some (GuiEvent.TabChanged "todo")
      else ret2
    else ret2
  -- lines 210–225: row move
  let r : (Nat × Nat) × Bool :=
    if item_row_chg ≠ 0 then rowMove layout1 tab_pos1 item_pos1 item_row_chg
    else (item_pos1, false)
  let item_pos2 := r.1
  let redraw_items3 := redraw_items2 || r.2
  -- lines 227–243: column move
  let c : (Nat × Nat) × Bool :=
    if item_column_chg ≠ 0 then colMove layout1 tab_pos1 item_pos2 item_column_chg
    else (item_pos2, false)
  let item_pos3 := c.1
  let redraw_items4 := redraw_items3 || c.2
  { gui := { layout := layout1, tab_pos := tab_pos1,
             item_pos := item_pos3, ignore_hid := g.ignore_hid },
    ret := ret3, redraw_tabs := redraw_tabs1, redraw_items := redraw_items4 }

/-- Feed a list of device events, one per loop iteration. -/
def Gui.runMoves (g : Gui) : List HidEvent → Gui
  | [] => g
  | e :: rest => ((g.step (some e) none).gui).runMoves rest

/-- Run over a list of per-iteration `(device, renderer)` poll outcomes,
collecting every semantic event assigned to `ret` (each such event makes
`get_ev` return once; the caller then re-enters the loop). -/
def Gui.runInputs (g : Gui) :
    List (Option HidEvent × Option RendererEvent) → Gui × List GuiEvent
  | [] => (g, [])
  | p :: rest =>
    let s := g.step p.1 p.2
    let t := s.gui.runInputs rest
    (t.1, match s.ret with | some ev => ev :: t.2 | none => t.2)

/-- One iteration's queue interaction (`lib.rs` lines 134–157): the device
queue is polled first; the renderer queue is polled only when the device
queue yields nothing.  Returns the iteration outcome and what remains of
both queues. -/
def Gui.pollStep (g : Gui) (devQ : List HidEvent) (renQ : List RendererEvent) :
    StepResult × List HidEvent × List RendererEvent :=
  match devQ with
  | d :: ds => (g.step (some d) none, ds, renQ)
  | [] =>
    match renQ with
    | r :: rs => (g.step none (some r), [], rs)
    | [] => (g.step none none, [], [])

/-- `pos` denotes an existing item of `grid`. -/
def gridHasItem (grid : List (List Item)) (pos : Nat × Nat) : Bool :=
  match grid[pos.1]? with
  | some row => decide (pos.2 < row.length)
  | none => false

/-- `grid` holds no item at all (no rows, or only empty rows). -/
def gridNoItems (grid : List (List Item)) : Bool :=
  grid.all (fun row => row.isEmpty)

/-- The focus invariant of §3 / §8 of the spec: the focused position denotes
an existing item of the current tab's grid, or is `(0,0)` when that grid is
empty. -/
def Gui.focusValid (g : Gui) : Bool :=
  match g.layout.tabAt g.tab_pos with
  | none => false
  | some tab =>
    gridHasItem tab.item_grid g.item_pos ||
      (gridNoItems tab.item_grid && decide (g.item_pos = (0, 0)))

/-- The four directional move inputs. -/
def HidEvent.isDirectional : HidEvent → Bool
  | HidEvent.Up => true
  | HidEvent.Down => true
  | HidEvent.Left => true
  | HidEvent.Right => true
  | _ => false

/-! ### Concrete example states (used as witnesses and counterexamples) -/

/-- A one-tab layout with a ragged two-row grid. -/
def demoTab : Tab :=
  ⟨"main", [[Item.Text "a", Item.StatefulButton "b" false 1],
            [Item.StatelessButton "c" 2]]⟩

def demoLayout : Layout := ⟨[demoTab]⟩

def demoGui : Gui := ⟨demoLayout, 0, (0, 0), false⟩

/-- Same layout, with the ignore-input flag set. -/
def ignoreGui : Gui := ⟨demoLayout, 0, (0, 0), true⟩

def twoTabLayout : Layout :=
  ⟨[⟨"A", [[Item.Text "x"]]⟩, ⟨"B", [[Item.Text "y"]]⟩]⟩

def twoTabGui : Gui := ⟨twoTabLayout, 0, (0, 0), false⟩

/-- A layout whose second tab is literally named "todo". -/
def todoLayout : Layout :=
  ⟨[⟨"A", [[Item.Text "x"]]⟩, ⟨"todo", [[Item.Text "y"]]⟩]⟩

def todoGui : Gui := ⟨todoLayout, 0, (0, 0), false⟩

def threeTabLayout : Layout :=
  ⟨[⟨"A", [[Item.Text "x"]]⟩, ⟨"B", [[Item.Text "y"]]⟩, ⟨"C", [[Item.Text "z"]]⟩]⟩

def threeTabGui : Gui := ⟨threeTabLayout, 0, (0, 0), false⟩

/-- A one-column grid with 10002 rows: more rows than the literal 10000 used
by `get_ev`'s row clamp. -/
def tallGrid : List (List Item) := List.replicate 10002 [Item.Text "r"]

def tallTab : Tab := ⟨"tall", tallGrid⟩

def tallGui : Gui := ⟨⟨[tallTab]⟩, 0, (10000, 0), false⟩

/-- A single row with 10002 items: wider than the literal 10000 used by
`get_ev`'s column clamp. -/
def wideRow : List Item := List.replicate 10002 (Item.Text "c")

def wideTab : Tab := ⟨"wide", [wideRow]⟩

def wideGui : Gui := ⟨⟨[wideTab]⟩, 0, (0, 10000), false⟩

/-! ### Characterization of one loop iteration, input by input -/

lemma Gui.mk_eta (g : Gui) (b : Bool) (h : g.ignore_hid = b) :
    ({ layout := g.layout, tab_pos := g.tab_pos, item_pos := g.item_pos,
       ignore_hid := b } : Gui) = g := by
  subst h
  rfl

lemma step_none_none (g : Gui) :
    g.step none none = ⟨g, none, false, false⟩ := by
  simp [Gui.step]

lemma step_ignore_dev (g : Gui) (h : g.ignore_hid = true) (e : HidEvent) :
    g.step (some e) none = ⟨g, none, false, false⟩ := by
  simp [Gui.step, h, Gui.mk_eta g true h]

lemma step_ignore_ren (g : Gui) (h : g.ignore_hid = true) (r : RendererEvent) :
    g.step none (some r) = ⟨g, none, false, false⟩ := by
  simp [Gui.step, h, Gui.mk_eta g true h]

lemma step_refresh (g : Gui) (h : g.ignore_hid = false) :
    g.step none (some RendererEvent.Refresh) = ⟨g, none, true, true⟩ := by
  simp [Gui.step, h, Gui.mk_eta g false h]

lemma step_window_closed (g : Gui) (h : g.ignore_hid = false) :
    g.step none (some RendererEvent.WindowClosed) =
      ⟨g, some GuiEvent.Quit, false, false⟩ := by
  simp [Gui.step, h, Gui.mk_eta g false h]

lemma step_ren_hid (g : Gui) (h : g.ignore_hid = false) (e : HidEvent) :
    g.step none (some (RendererEvent.Hid e)) = g.step (some e) none := by
  simp [Gui.step, h]

lemma step_quit (g : Gui) (h : g.ignore_hid = false) :
    g.step (some HidEvent.Quit) none = ⟨g, some GuiEvent.Quit, false, false⟩ := by
  simp [Gui.step, h, Gui.mk_eta g false h]

lemma step_up (g : Gui) (h : g.ignore_hid = false) :
    g.step (some HidEvent.Up) none =
      ⟨{ g with item_pos := (rowMove g.layout g.tab_pos g.item_pos (-1)).1 },
       none, false, (rowMove g.layout g.tab_pos g.item_pos (-1)).2⟩ := by
  simp [Gui.step, h]

lemma step_down (g : Gui) (h : g.ignore_hid = false) :
    g.step (some HidEvent.Down) none =
      ⟨{ g with item_pos := (rowMove g.layout g.tab_pos g.item_pos 1).1 },
       none, false, (rowMove g.layout g.tab_pos g.item_pos 1).2⟩ := by
  simp [Gui.step, h]

lemma step_left (g : Gui) (h : g.ignore_hid = false) :
    g.step (some HidEvent.Left) none =
      ⟨{ g with item_pos := (colMove g.layout g.tab_pos g.item_pos (-1)).1 },
       none, false, (colMove g.layout g.tab_pos g.item_pos (-1)).2⟩ := by
  simp [Gui.step, h]

lemma step_right (g : Gui) (h : g.ignore_hid = false) :
    g.step (some HidEvent.Right) none =
      ⟨{ g with item_pos := (colMove g.layout g.tab_pos g.item_pos 1).1 },
       none, false, (colMove g.layout g.tab_pos g.item_pos 1).2⟩ := by
  simp [Gui.step, h]

lemma step_button_press (g : Gui) (h : g.ignore_hid = false) :
    g.step (some HidEvent.ButtonPress) none =
      ⟨{ g with layout := (activateAt g.layout g.tab_pos g.item_pos).1 },
       (activateAt g.layout g.tab_pos g.item_pos).2.1, false,
       (activateAt g.layout g.tab_pos g.item_pos).2.2⟩ := by
  cases ha : (activateAt g.layout g.tab_pos g.item_pos).2.1 <;>
    simp [Gui.step, h, ha]

lemma step_next_tab (g : Gui) (h : g.ignore_hid = false) :
    g.step (some HidEvent.NextTab) none =
      ⟨{ g with tab_pos := iclamp (g.tab_pos + 1) 0 g.layout.tab_count,
                item_pos := (0, 0) },
       some (GuiEvent.TabChanged "todo"), true, true⟩ := by
  simp [Gui.step, h]

lemma step_prev_tab (g : Gui) (h : g.ignore_hid = false) :
    g.step (some HidEvent.PreviousTab) none =
      ⟨{ g with tab_pos := iclamp (g.tab_pos + -1) 0 g.layout.tab_count,
                item_pos := (0, 0) },
       some (GuiEvent.TabChanged "todo"), true, true⟩ := by
  simp [Gui.step, h]

/-! ### Preservation of the focus invariant by directional moves -/

lemma gridHasItem_iff (grid : List (List Item)) (pos : Nat × Nat) :
    gridHasItem grid pos = true ↔
      ∃ row, grid[pos.1]? = some row ∧ pos.2 < row.length := by
  unfold gridHasItem
  cases h : grid[pos.1]? <;> simp [h]

lemma gridNoItems_length (grid : List (List Item)) (h : gridNoItems grid = true)
    (i : Nat) (row : List Item) (hrow : grid[i]? = some row) :
    row.length = 0 := by
  have hm : row ∈ grid := List.getElem?_mem hrow
  have := List.all_eq_true.mp h row hm
  simpa [List.isEmpty_iff_length_eq_zero] using this

/-- The disjunctive shape of the focus invariant, relative to one grid. -/
def posOk (grid : List (List Item)) (pos : Nat × Nat) : Prop :=
  gridHasItem grid pos = true ∨ (gridNoItems grid = true ∧ pos = (0, 0))

lemma rowMove_posOk (l : Layout) (tp : Int) (tab : Tab)
    (ht : l.tabAt tp = some tab) (pos : Nat × Nat) (chg : Int)
    (hv : posOk tab.item_grid pos) :
    posOk tab.item_grid (rowMove l tp pos chg).1 := by
  unfold rowMove
  rw [ht]
  simp only [Tab.items]
  split
  next => exact hv
  next row hrow =>
    split
    next => exact hv
    next it hit =>
      left
      rw [gridHasItem_iff]
      obtain ⟨hlt, -⟩ := List.getElem?_eq_some.mp hit
      exact ⟨row, hrow, hlt⟩

lemma colMove_posOk (l : Layout) (tp : Int) (tab : Tab)
    (ht : l.tabAt tp = some tab) (pos : Nat × Nat) (chg : Int)
    (hv : posOk tab.item_grid pos) :
    posOk tab.item_grid (colMove l tp pos chg).1 := by
  unfold colMove
  rw [ht]
  simp only [Tab.items]
  split
  next row hrow =>
    rcases hv with hv | ⟨hni, hpos⟩
    · left
      rw [gridHasItem_iff] at hv ⊢
      obtain ⟨row', hrow', hlt⟩ := hv
      rw [hrow'] at hrow
      have hE : row' = row := by injection hrow
      rw [hE] at hrow' hlt
      refine ⟨row, hrow', ?_⟩
      show (iclamp ((pos.2 : Int) + chg) 0
        (iclamp ((row.length : Int) - 1) 0 10000)).toNat < row.length
      simp only [iclamp]
      omega
    · right
      have hlen : row.length = 0 := gridNoItems_length _ hni _ _ hrow
      refine ⟨hni, ?_⟩
      subst hpos
      show ((0 : Nat),
        (iclamp ((0 : Int) + chg) 0
          (iclamp ((row.length : Int) - 1) 0 10000)).toNat) = ((0 : Nat), (0 : Nat))
      have hz : (iclamp ((0 : Int) + chg) 0
          (iclamp ((row.length : Int) - 1) 0 10000)).toNat = 0 := by
        simp only [iclamp]
        omega
      rw [hz]
  next hrow =>
    rcases hv with hv | ⟨hni, hpos⟩
    · rw [gridHasItem_iff] at hv
      obtain ⟨row', hrow', -⟩ := hv
      rw [hrow'] at hrow
      exact absurd hrow (by simp)
    · right
      refine ⟨hni, ?_⟩
      subst hpos
      rfl

lemma focusValid_posOk (g : Gui) (tab : Tab)
    (ht : g.layout.tabAt g.tab_pos = some tab) :
    g.focusValid = true ↔ posOk tab.item_grid g.item_pos := by
  unfold Gui.focusValid posOk
  rw [ht]
  cases h1 : gridHasItem tab.item_grid g.item_pos <;>
    cases h2 : gridNoItems tab.item_grid <;> simp [h1, h2]

lemma focusValid_step_directional (g : Gui) (e : HidEvent)
    (hd : e.isDirectional = true) (hv : g.focusValid = true) :
    ((g.step (some e) none).gui).focusValid = true := by
  cases hig : g.ignore_hid with
  | true => rw [step_ignore_dev g hig]; exact hv
  | false =>
    have htab : ∃ tab, g.layout.tabAt g.tab_pos = some tab := by
      unfold Gui.focusValid at hv
      cases h : g.layout.tabAt g.tab_pos with
      | none => rw [h] at hv; exact absurd hv (by simp)
      | some t => exact ⟨t, rfl⟩
    obtain ⟨tab, ht⟩ := htab
    have hpos : posOk tab.item_grid g.item_pos :=
      (focusValid_posOk g tab ht).mp hv
    cases e with
    | Up =>
      rw [step_up g hig]
      exact (focusValid_posOk
        { g with item_pos := (rowMove g.layout g.tab_pos g.item_pos (-1)).1 }
        tab ht).mpr (rowMove_posOk g.layout g.tab_pos tab ht g.item_pos (-1) hpos)
    | Down =>
      rw [step_down g hig]
      exact (focusValid_posOk
        { g with item_pos := (rowMove g.layout g.tab_pos g.item_pos 1).1 }
        tab ht).mpr (rowMove_posOk g.layout g.tab_pos tab ht g.item_pos 1 hpos)
    | Left =>
      rw [step_left g hig]
      exact (focusValid_posOk
        { g with item_pos := (colMove g.layout g.tab_pos g.item_pos (-1)).1 }
        tab ht).mpr (colMove_posOk g.layout g.tab_pos tab ht g.item_pos (-1) hpos)
    | Right =>
      rw [step_right g hig]
      exact (focusValid_posOk
        { g with item_pos := (colMove g.layout g.tab_pos g.item_pos 1).1 }
        tab ht).mpr (colMove_posOk g.layout g.tab_pos tab ht g.item_pos 1 hpos)
    | NextTab => exact absurd hd (by simp [HidEvent.isDirectional])
    | PreviousTab => exact absurd hd (by simp [HidEvent.isDirectional])
    | ButtonPress => exact absurd hd (by simp [HidEvent.isDirectional])
    | Quit => exact absurd hd (by simp [HidEvent.isDirectional])

lemma step_ignore (g : Gui) (h : g.ignore_hid = true)
    (d : Option HidEvent) (r : Option RendererEvent) :
    g.step d r = ⟨g, none, false, false⟩ := by
  cases d <;> cases r <;> simp [Gui.step, h, Gui.mk_eta g true h]

/-! ### Activation: lookup and in-place update -/

lemma itemAt_eq_some (l : Layout) (tp : Int) (r c : Nat) (x : Item) :
    l.itemAt tp r c = some x ↔
      ∃ tab row, l.tabAt tp = some tab ∧ tab.item_grid[r]? = some row ∧
        row[c]? = some x := by
  unfold Layout.itemAt
  cases ht : l.tabAt tp with
  | none => simp
  | some tab =>
    cases hr : tab.item_grid[r]? with
    | none => simp [hr]
    | some row => simp [hr]

lemma tabAt_nonneg (l : Layout) (tp : Int) (tab : Tab)
    (ht : l.tabAt tp = some tab) : ¬ tp < 0 := by
  intro hneg
  rw [Layout.tabAt, if_pos hneg] at ht
  exact absurd ht (by simp)

lemma setItem_spec (l : Layout) (tp : Int) (r c : Nat) (it : Item)
    (tab : Tab) (row : List Item)
    (ht : l.tabAt tp = some tab) (hr : tab.item_grid[r]? = some row) :
    l.setItem tp r c it =
      ⟨l.tabs.set tp.toNat
        { tab with item_grid := tab.item_grid.set r (row.set c it) }⟩ := by
  unfold Layout.setItem
  rw [ht]
  simp only [hr]

lemma tabAt_set (l : Layout) (tp : Int) (tab newTab : Tab)
    (ht : l.tabAt tp = some tab) :
    (⟨l.tabs.set tp.toNat newTab⟩ : Layout).tabAt tp = some newTab := by
  have htp := tabAt_nonneg l tp tab ht
  rw [Layout.tabAt, if_neg htp] at ht ⊢
  obtain ⟨hlt, -⟩ := List.getElem?_eq_some.mp ht
  exact List.getElem?_set_eq_of_lt _ hlt

lemma itemAt_after_set_same (l : Layout) (tp : Int) (r c : Nat) (it x : Item)
    (tab : Tab) (row : List Item)
    (ht : l.tabAt tp = some tab) (hr : tab.item_grid[r]? = some row)
    (hc : row[c]? = some x) :
    (l.setItem tp r c it).itemAt tp r c = some it := by
  rw [setItem_spec l tp r c it tab row ht hr]
  rw [itemAt_eq_some]
  refine ⟨{ tab with item_grid := tab.item_grid.set r (row.set c it) },
    row.set c it, ?_, ?_, ?_⟩
  · exact tabAt_set l tp tab _ ht
  · obtain ⟨hlt, -⟩ := List.getElem?_eq_some.mp hr
    exact List.getElem?_set_eq_of_lt _ hlt
  · obtain ⟨hlt, -⟩ := List.getElem?_eq_some.mp hc
    exact List.getElem?_set_eq_of_lt _ hlt

lemma tabAt_neg (l : Layout) (tp : Int) (h : tp < 0) : l.tabAt tp = none := by
  unfold Layout.tabAt
  rw [if_pos h]

lemma itemAt_expand (l : Layout) (tp : Int) (tab : Tab)
    (ht : l.tabAt tp = some tab) (r c : Nat) :
    l.itemAt tp r c =
      (match tab.item_grid[r]? with
        | none => none
        | some row => row[c]?) := by
  unfold Layout.itemAt
  rw [ht]

lemma itemAt_tab_none (l : Layout) (tp : Int) (ht : l.tabAt tp = none)
    (r c : Nat) : l.itemAt tp r c = none := by
  unfold Layout.itemAt
  rw [ht]

lemma tabAt_set_other (l : Layout) (tp tp' : Int) (newTab : Tab)
    (htp : ¬ tp < 0) (htpe : tp' ≠ tp) :
    (⟨l.tabs.set tp.toNat newTab⟩ : Layout).tabAt tp' = l.tabAt tp' := by
  unfold Layout.tabAt Layout.tab
  by_cases hneg : tp' < 0
  · simp only [if_pos hneg]
  · simp only [if_neg hneg]
    exact List.getElem?_set_ne (fun hEq => htpe (by omega))

lemma itemAt_after_set_other (l : Layout) (tp : Int) (r c : Nat) (it : Item)
    (tab : Tab) (row : List Item)
    (ht : l.tabAt tp = some tab) (hr : tab.item_grid[r]? = some row)
    (tp' : Int) (r' c' : Nat)
    (hne : ¬(tp' = tp ∧ r' = r ∧ c' = c)) :
    (l.setItem tp r c it).itemAt tp' r' c' = l.itemAt tp' r' c' := by
  rw [setItem_spec l tp r c it tab row ht hr]
  have htp := tabAt_nonneg l tp tab ht
  by_cases htpe : tp' = tp
  · subst htpe
    have hTnew := tabAt_set l tp' tab
      { tab with item_grid := tab.item_grid.set r (row.set c it) } ht
    rw [itemAt_expand _ _ _ hTnew, itemAt_expand _ _ _ ht]
    by_cases hre : r' = r
    · subst hre
      have hrne : ¬(c' = c) := fun hce => hne ⟨rfl, rfl, hce⟩
      obtain ⟨hlt, -⟩ := List.getElem?_eq_some.mp hr
      show (match (tab.item_grid.set r' (row.set c it))[r']? with
        | none => none
        | some row => row[c']?) = _
      rw [List.getElem?_set_eq_of_lt _ hlt, hr]
      show (row.set c it)[c']? = row[c']?
      exact List.getElem?_set_ne (fun hce => hrne hce.symm)
    · show (match (tab.item_grid.set r (row.set c it))[r']? with
        | none => none
        | some row => row[c']?) = _
      rw [List.getElem?_set_ne (fun hce => hre hce.symm)]
  · rw [Layout.itemAt, Layout.itemAt,
      tabAt_set_other l tp tp' _ htp htpe]

lemma activateAt_stateful (l : Layout) (tp : Int) (pos : Nat × Nat)
    (text : String) (state : Bool) (id : Nat)
    (hit : l.itemAt tp pos.1 pos.2 = some (Item.StatefulButton text state id)) :
    activateAt l tp pos =
      (l.setItem tp pos.1 pos.2 (Item.StatefulButton text (!state) id),
       some (GuiEvent.StatefulButtonChange text (!state) id), true) := by
  rw [itemAt_eq_some] at hit
  obtain ⟨tab, row, ht, hr, hc⟩ := hit
  unfold activateAt
  rw [ht]
  simp only [hr, hc]

lemma activateAt_stateless (l : Layout) (tp : Int) (pos : Nat × Nat)
    (text : String) (id : Nat)
    (hit : l.itemAt tp pos.1 pos.2 = some (Item.StatelessButton text id)) :
    activateAt l tp pos = (l, some (GuiEvent.StatelessButtonPress text id), false) := by
  rw [itemAt_eq_some] at hit
  obtain ⟨tab, row, ht, hr, hc⟩ := hit
  unfold activateAt
  rw [ht]
  simp only [hr, hc]

lemma activateAt_text (l : Layout) (tp : Int) (pos : Nat × Nat) (s : String)
    (hit : l.itemAt tp pos.1 pos.2 = some (Item.Text s)) :
    activateAt l tp pos = (l, none, false) := by
  rw [itemAt_eq_some] at hit
  obtain ⟨tab, row, ht, hr, hc⟩ := hit
  unfold activateAt
  rw [ht]
  simp only [hr, hc]

lemma activateAt_miss (l : Layout) (tp : Int) (pos : Nat × Nat)
    (hmiss : l.itemAt tp pos.1 pos.2 = none) :
    activateAt l tp pos = (l, none, false) := by
  unfold Layout.itemAt at hmiss
  unfold activateAt
  cases ht : l.tabAt tp with
  | none => rfl
  | some tab =>
    rw [ht] at hmiss
    simp only at hmiss
    cases hr : tab.item_grid[pos.1]? with
    | none => simp [hr]
    | some row =>
      rw [hr] at hmiss
      simp only at hmiss
      cases hc : row[pos.2]? with
      | none => simp [hr, hc]
      | some x =>
        rw [hc] at hmiss
        exact absurd hmiss (by simp)

/-! ### Closed forms of the two move blocks -/

lemma gridHasItem_mk (grid : List (List Item)) (r c : Nat) :
    gridHasItem grid (r, c) =
      (match grid[r]? with
        | some row => decide (c < row.length)
        | none => false) := rfl

lemma rowMove_eq (l : Layout) (tp : Int) (tab : Tab)
    (ht : l.tabAt tp = some tab) (pos : Nat × Nat) (chg : Int) :
    rowMove l tp pos chg =
      (if gridHasItem tab.item_grid
          ((iclamp ((pos.1 : Int) + chg) 0
            (iclamp ((tab.item_grid.length : Int) - 1) 0 10000)).toNat, pos.2)
        then (((iclamp ((pos.1 : Int) + chg) 0
            (iclamp ((tab.item_grid.length : Int) - 1) 0 10000)).toNat, pos.2),
          true)
        else (pos, false)) := by
  unfold rowMove
  rw [ht]
  simp only [Tab.items]
  split
  next hrow =>
    rw [gridHasItem_mk, hrow]
    simp
  next row hrow =>
    split
    next hcol =>
      have hnlt : ¬ pos.2 < row.length := fun hlt2 => by
        simp [List.getElem?_eq_getElem hlt2] at hcol
      rw [gridHasItem_mk, hrow]
      simp [hnlt]
    next it hcol =>
      obtain ⟨hlt, -⟩ := List.getElem?_eq_some.mp hcol
      rw [gridHasItem_mk, hrow]
      simp [hlt]

lemma colMove_eq (l : Layout) (tp : Int) (tab : Tab)
    (ht : l.tabAt tp = some tab) (pos : Nat × Nat) (chg : Int) :
    colMove l tp pos chg =
      ((pos.1,
        match tab.item_grid[pos.1]? with
        | some row =>
          (iclamp ((pos.2 : Int) + chg) 0
            (iclamp ((row.length : Int) - 1) 0 10000)).toNat
        | none => 0), true) := by
  unfold colMove
  rw [ht]
  simp only [Tab.items]

/-! ### The claims -/

/-- C1: for every layout and every sequence of directional move inputs
(Up/Down/Left/Right) processed by the engine, starting from a state whose
focused position references an existing item of the current tab's grid (or
(0,0) when that grid holds no item), the focused (row, column) after each
move again denotes an existing item, or (0,0) on an empty grid — never an
out-of-bounds index. -/
theorem C1_focus_invariant (g : Gui) (moves : List HidEvent)
    (hmoves : ∀ e ∈ moves, e.isDirectional = true)
    (hv : g.focusValid = true) :
    (g.runMoves moves).focusValid = true := by
  induction moves generalizing g with
  | nil => exact hv
  | cons e rest ih =>
    have h1 := focusValid_step_directional g e (hmoves e (by simp)) hv
    exact ih _ (fun x hx => hmoves x (by simp [hx])) h1

theorem C1_focus_invariant_witness :
    (demoGui.runMoves
      [HidEvent.Down, HidEvent.Right, HidEvent.Up, HidEvent.Left]).focusValid
        = true :=
  C1_focus_invariant demoGui _ (by decide) (by decide)

/-- C2: the code emits `TabChanged("todo")` — a hardcoded placeholder —
instead of the name of the newly focused tab.  At the failing input (a
two-tab layout named "A","B", focused tab 0, input NextTab) the engine does
move to tab 1, whose name is "B", yet the event carries "todo". -/
theorem C2_tab_changed_placeholder :
    (twoTabGui.step (some HidEvent.NextTab) none).ret
        = some (GuiEvent.TabChanged "todo") ∧
    (twoTabGui.step (some HidEvent.NextTab) none).gui.tab_pos = 1 ∧
    (twoTabLayout.tabAt 1).map Tab.name = some "B" ∧
    "todo" ≠ "B" := by
  refine ⟨?_, ?_, ?_, ?_⟩ <;> decide

/-- C3 counterexample: with the ignore-input flag set, a `Refresh` renderer
event does NOT mark the tab header and item grid dirty — the `!ignore_hid`
guard in `get_ev` swallows renderer events before the `Refresh` arm runs. -/
theorem C3_counterexample :
    (ignoreGui.step none (some RendererEvent.Refresh)).redraw_tabs = false ∧
    (ignoreGui.step none (some RendererEvent.Refresh)).redraw_items = false := by
  refine ⟨?_, ?_⟩ <;> decide

/-- C3 (amended): while the ignore-input flag is set, the engine drains and
discards all directional/activation input, and a `Refresh` renderer event is
likewise drained and discarded: neither region is marked dirty, no redraw is
triggered, and the focus does not change. -/
theorem C3_ignore_discards_refresh (g : Gui) (h : g.ignore_hid = true) :
    (∀ e : HidEvent, g.step (some e) none = ⟨g, none, false, false⟩) ∧
    g.step none (some RendererEvent.Refresh) = ⟨g, none, false, false⟩ :=
  ⟨fun e => step_ignore_dev g h e, step_ignore_ren g h RendererEvent.Refresh⟩

theorem C3_ignore_discards_refresh_witness :
    ignoreGui.step (some HidEvent.Left) none = ⟨ignoreGui, none, false, false⟩ ∧
    ignoreGui.step none (some RendererEvent.Refresh)
        = ⟨ignoreGui, none, false, false⟩ :=
  ⟨(C3_ignore_discards_refresh ignoreGui rfl).1 HidEvent.Left,
   (C3_ignore_discards_refresh ignoreGui rfl).2⟩

/-- C4 counterexample: the claim's "emits no tab-changed event reporting a
different tab" fails, because the boundary `PreviousTab` at tab 0 does emit
`TabChanged("todo")`; on a layout whose (non-focused) tab 1 is literally
named "todo" that event carries the name of a different existing tab. -/
theorem C4_counterexample :
    (todoGui.step (some HidEvent.PreviousTab) none).gui.tab_pos = 0 ∧
    (todoGui.step (some HidEvent.PreviousTab) none).ret
        = some (GuiEvent.TabChanged "todo") ∧
    (todoLayout.tabAt 1).map Tab.name = some "todo" ∧
    (1 : Int) ≠ 0 := by
  refine ⟨?_, ?_, ?_, ?_⟩ <;> decide

/-- C4 (amended): for every layout with n ≥ 1 tabs, PreviousTab at index 0
leaves the index at 0 and NextTab at the last index n-1 leaves it at n-1
(the emitted tab-changed event always carries the fixed placeholder "todo",
never the name of the newly focused tab); and the last tab is reachable:
NextTab at index n-2 moves the index to n-1, even though `tab_count` returns
n-1 and is used as the inclusive upper clamp bound. -/
theorem C4_boundary_clamps (g : Gui) (h : g.ignore_hid = false)
    (hn : g.layout.tabs ≠ []) :
    (g.tab_pos = 0 →
      (g.step (some HidEvent.PreviousTab) none).gui.tab_pos = 0 ∧
      ∀ s, (g.step (some HidEvent.PreviousTab) none).ret
          = some (GuiEvent.TabChanged s) → s = "todo") ∧
    (g.tab_pos = g.layout.tab_count →
      (g.step (some HidEvent.NextTab) none).gui.tab_pos = g.layout.tab_count) ∧
    (g.tab_pos = g.layout.tab_count - 1 →
      (g.step (some HidEvent.NextTab) none).gui.tab_pos = g.layout.tab_count) ∧
    g.layout.tab_count = (g.layout.tabs.length : Int) - 1 := by
  have hlen : 1 ≤ g.layout.tabs.length := List.length_pos.mpr hn
  refine ⟨?_, ?_, ?_, rfl⟩
  · intro h0
    rw [step_prev_tab g h]
    refine ⟨?_, ?_⟩
    · show iclamp (g.tab_pos + -1) 0 g.layout.tab_count = 0
      rw [h0]
      unfold iclamp Layout.tab_count
      omega
    · intro s hs
      simp only [Option.some.injEq, GuiEvent.TabChanged.injEq] at hs
      exact hs.symm
  · intro h0
    rw [step_next_tab g h]
    show iclamp (g.tab_pos + 1) 0 g.layout.tab_count = g.layout.tab_count
    rw [h0]
    unfold iclamp Layout.tab_count
    omega
  · intro h0
    rw [step_next_tab g h]
    show iclamp (g.tab_pos + 1) 0 g.layout.tab_count = g.layout.tab_count
    rw [h0]
    unfold iclamp Layout.tab_count
    omega

theorem C4_boundary_clamps_witness :
    (threeTabGui.step (some HidEvent.PreviousTab) none).gui.tab_pos = 0 ∧
    (((⟨threeTabLayout, 1, (0, 0), false⟩ : Gui).step
        (some HidEvent.NextTab) none).gui).tab_pos = threeTabLayout.tab_count :=
  ⟨((C4_boundary_clamps threeTabGui rfl (by decide)).1 rfl).1,
   ((C4_boundary_clamps ⟨threeTabLayout, 1, (0, 0), false⟩ rfl
      (by decide)).2.2.1 (by decide))⟩

/-- C9: in every iteration at most one queued input is consumed and acted
upon, and device input has priority: when the device queue yields an event,
the renderer queue is left untouched and the iteration's outcome is that of
the device event alone, independent of the renderer queue's content. -/
theorem C9_device_priority (g : Gui) (devQ : List HidEvent)
    (renQ : List RendererEvent) :
    (devQ.length - (g.pollStep devQ renQ).2.1.length) +
      (renQ.length - (g.pollStep devQ renQ).2.2.length) ≤ 1 ∧
    (∀ d ds, devQ = d :: ds →
      (g.pollStep devQ renQ).2.2 = renQ ∧
      (g.pollStep devQ renQ).1 = g.step (some d) none ∧
      ∀ renQ2, (g.pollStep devQ renQ2).1 = (g.pollStep devQ renQ).1) := by
  cases devQ with
  | cons d ds =>
    refine ⟨?_, ?_⟩
    · simp [Gui.pollStep]
    · rintro d' ds' hEq
      injection hEq with h1 h2
      subst h1; subst h2
      exact ⟨rfl, rfl, fun renQ2 => rfl⟩
  | nil =>
    refine ⟨?_, ?_⟩
    · cases renQ <;> simp [Gui.pollStep]
    · rintro d' ds' hEq
      exact absurd hEq (by simp)

theorem C9_device_priority_witness :
    (demoGui.pollStep [HidEvent.Down] [RendererEvent.Refresh]).2.2
        = [RendererEvent.Refresh] :=
  (((C9_device_priority demoGui [HidEvent.Down] [RendererEvent.Refresh]).2)
    HidEvent.Down [] rfl).1

/-- C10: while the ignore-input flag is set, every received event — device
`Quit` included, renderer `WindowClosed` and `Refresh` included — is drained
and discarded: over any finite sequence of polled events, the state never
changes and no semantic event is ever produced, so `get_ev` cannot return
until the flag is cleared. -/
theorem C10_ignore_never_returns (g : Gui) (h : g.ignore_hid = true)
    (ins : List (Option HidEvent × Option RendererEvent)) :
    g.runInputs ins = (g, []) := by
  induction ins with
  | nil => rfl
  | cons p rest ih =>
    simp [Gui.runInputs, step_ignore g h p.1 p.2, ih]

theorem C10_ignore_never_returns_witness :
    ignoreGui.runInputs
      [(some HidEvent.Quit, none),
       (none, some RendererEvent.WindowClosed),
       (none, some RendererEvent.Refresh),
       (some HidEvent.ButtonPress, some RendererEvent.WindowClosed)]
      = (ignoreGui, []) :=
  C10_ignore_never_returns ignoreGui rfl _

/-- C5: a ButtonPress while the focus references a stateful button flips
exactly that button's state, emits exactly one stateful-button-changed event
carrying the new (toggled) state and that button's id, marks items dirty,
and leaves every other item of the layout, and the focus itself, unchanged. -/
theorem C5_stateful_toggle (g : Gui) (h : g.ignore_hid = false)
    (text : String) (state : Bool) (id : Nat)
    (hit : g.layout.itemAt g.tab_pos g.item_pos.1 g.item_pos.2
        = some (Item.StatefulButton text state id)) :
    (g.step (some HidEvent.ButtonPress) none).ret
        = some (GuiEvent.StatefulButtonChange text (!state) id) ∧
    ((g.step (some HidEvent.ButtonPress) none).gui).layout.itemAt
        g.tab_pos g.item_pos.1 g.item_pos.2
        = some (Item.StatefulButton text (!state) id) ∧
    (∀ tp r c, ¬(tp = g.tab_pos ∧ r = g.item_pos.1 ∧ c = g.item_pos.2) →
      ((g.step (some HidEvent.ButtonPress) none).gui).layout.itemAt tp r c
          = g.layout.itemAt tp r c) ∧
    ((g.step (some HidEvent.ButtonPress) none).gui).tab_pos = g.tab_pos ∧
    ((g.step (some HidEvent.ButtonPress) none).gui).item_pos = g.item_pos ∧
    (g.step (some HidEvent.ButtonPress) none).redraw_items = true := by
  have hact := activateAt_stateful g.layout g.tab_pos g.item_pos text state id hit
  obtain ⟨tab, row, ht, hr, hc⟩ := (itemAt_eq_some _ _ _ _ _).mp hit
  rw [step_button_press g h, hact]
  refine ⟨rfl, ?_, ?_, rfl, rfl, rfl⟩
  · exact itemAt_after_set_same g.layout g.tab_pos g.item_pos.1 g.item_pos.2
      _ _ tab row ht hr hc
  · intro tp r c hcne
    exact itemAt_after_set_other g.layout g.tab_pos g.item_pos.1 g.item_pos.2
      _ tab row ht hr tp r c hcne

theorem C5_stateful_toggle_witness :
    ((⟨demoLayout, 0, (0, 1), false⟩ : Gui).step
        (some HidEvent.ButtonPress) none).ret
      = some (GuiEvent.StatefulButtonChange "b" true 1) ∧
    (((⟨demoLayout, 0, (0, 1), false⟩ : Gui).step
        (some HidEvent.ButtonPress) none).gui).layout.itemAt 0 1 0
      = (⟨demoLayout, 0, (0, 1), false⟩ : Gui).layout.itemAt 0 1 0 :=
  ⟨(C5_stateful_toggle ⟨demoLayout, 0, (0, 1), false⟩ rfl "b" false 1 rfl).1,
   (C5_stateful_toggle ⟨demoLayout, 0, (0, 1), false⟩ rfl "b" false 1
      rfl).2.2.1 0 1 0 (by decide)⟩

/-- C6: a ButtonPress while the focused position does not resolve to an item
(ragged row, past the last row, or unresolvable tab index), or resolves to a
Text item, changes nothing: the layout and focus are untouched, no redraw is
requested and no semantic event is emitted, so the loop keeps polling. -/
theorem C6_activation_miss (g : Gui) (h : g.ignore_hid = false)
    (hmiss : g.layout.itemAt g.tab_pos g.item_pos.1 g.item_pos.2 = none ∨
      ∃ s, g.layout.itemAt g.tab_pos g.item_pos.1 g.item_pos.2
          = some (Item.Text s)) :
    g.step (some HidEvent.ButtonPress) none = ⟨g, none, false, false⟩ := by
  rw [step_button_press g h]
  have hact : activateAt g.layout g.tab_pos g.item_pos = (g.layout, none, false) := by
    rcases hmiss with hm | ⟨s, hm⟩
    · exact activateAt_miss g.layout g.tab_pos g.item_pos hm
    · exact activateAt_text g.layout g.tab_pos g.item_pos s hm
  rw [hact]

theorem C6_activation_miss_witness :
    (⟨demoLayout, 0, (1, 5), false⟩ : Gui).step (some HidEvent.ButtonPress) none
      = ⟨⟨demoLayout, 0, (1, 5), false⟩, none, false, false⟩ :=
  C6_activation_miss ⟨demoLayout, 0, (1, 5), false⟩ rfl (Or.inl (by decide))

/-- C7 counterexample: on a grid with 10002 rows, a Down at row 10000 does
not move to row 10001, although the claim's candidate `clamp(row+1, 0,
last_row)` is 10001 and that row has an item at the current column — the
code clamps the candidate with the literal 10000, not with `last_row`. -/
theorem C7_counterexample :
    tallGrid.length = 10002 ∧
    gridHasItem tallGrid (10001, 0) = true ∧
    (iclamp ((10000 : Int) + 1) 0 ((tallGrid.length : Int) - 1)).toNat = 10001 ∧
    ((tallGui.step (some HidEvent.Down) none).gui).item_pos = (10000, 0) ∧
    ((10000 : Nat), (0 : Nat)) ≠ ((10001 : Nat), (0 : Nat)) := by
  have he : tallGrid = List.replicate 10002 [Item.Text "r"] := rfl
  have hlen : tallGrid.length = 10002 := by
    rw [he, List.length_replicate]
  have hTe : tallTab.item_grid = tallGrid := rfl
  refine ⟨hlen, ?_, ?_, ?_, by decide⟩
  · rw [gridHasItem_mk]
    rw [show tallGrid[10001]? = some [Item.Text "r"] from by
      rw [he, List.getElem?_replicate, if_pos (by norm_num)]]
    rfl
  · rw [hlen]
    decide
  · rw [step_down tallGui rfl,
      rowMove_eq tallGui.layout tallGui.tab_pos tallTab rfl tallGui.item_pos 1]
    have hidx : (iclamp ((tallGui.item_pos.1 : Int) + 1) 0
        (iclamp ((tallTab.item_grid.length : Int) - 1) 0 10000)).toNat
          = 10000 := by
      have h1 : tallGui.item_pos.1 = 10000 := rfl
      rw [h1, hTe, hlen]
      decide
    have hcond : gridHasItem tallTab.item_grid
        ((iclamp ((tallGui.item_pos.1 : Int) + 1) 0
          (iclamp ((tallTab.item_grid.length : Int) - 1) 0 10000)).toNat,
         tallGui.item_pos.2) = true := by
      rw [hidx, gridHasItem_mk]
      rw [show tallTab.item_grid[10000]? = some [Item.Text "r"] from by
        rw [hTe, he, List.getElem?_replicate, if_pos (by norm_num)]]
      rfl
    rw [if_pos hcond, hidx]
    rfl

/-- C7 (amended): for every Up or Down input, the candidate row is the
current row ±1 clamped to `[0, min(last_row, 10000)]` (the code caps the
upper bound with the literal 10000), and the move commits — updating the
focused row and marking items dirty — if and only if the candidate row has
an item at the current column; otherwise the focused position is unchanged.
For grids of at most 10001 rows this coincides with the claim's
`[0, last_row]`. -/
theorem C7_row_move (g : Gui) (h : g.ignore_hid = false) (tab : Tab)
    (ht : g.layout.tabAt g.tab_pos = some tab) (e : HidEvent) (chg : Int)
    (he : (e = HidEvent.Up ∧ chg = -1) ∨ (e = HidEvent.Down ∧ chg = 1)) :
    ((g.step (some e) none).gui).item_pos =
      (if gridHasItem tab.item_grid
          ((iclamp ((g.item_pos.1 : Int) + chg) 0
            (iclamp ((tab.item_grid.length : Int) - 1) 0 10000)).toNat,
           g.item_pos.2)
        then ((iclamp ((g.item_pos.1 : Int) + chg) 0
            (iclamp ((tab.item_grid.length : Int) - 1) 0 10000)).toNat,
           g.item_pos.2)
        else g.item_pos) ∧
    (g.step (some e) none).redraw_items =
      gridHasItem tab.item_grid
        ((iclamp ((g.item_pos.1 : Int) + chg) 0
          (iclamp ((tab.item_grid.length : Int) - 1) 0 10000)).toNat,
         g.item_pos.2) ∧
    ((g.step (some e) none).gui).layout = g.layout ∧
    ((g.step (some e) none).gui).tab_pos = g.tab_pos ∧
    (g.step (some e) none).ret = none := by
  rcases he with ⟨rfl, rfl⟩ | ⟨rfl, rfl⟩
  · rw [step_up g h, rowMove_eq g.layout g.tab_pos tab ht g.item_pos (-1)]
    refine ⟨?_, ?_, rfl, rfl, rfl⟩
    · split <;> rfl
    · split <;> simp_all
  · rw [step_down g h, rowMove_eq g.layout g.tab_pos tab ht g.item_pos 1]
    refine ⟨?_, ?_, rfl, rfl, rfl⟩
    · split <;> rfl
    · split <;> simp_all

theorem C7_row_move_witness :
    ((demoGui.step (some HidEvent.Down) none).gui).item_pos = (1, 0) := by
  have hc := C7_row_move demoGui rfl demoTab rfl HidEvent.Down 1
    (Or.inr ⟨rfl, rfl⟩)
  rw [hc.1]
  decide

/-- C8 counterexample: on a row of 10002 items, a Right at column 10000 does
not move to column 10001, although the claim's candidate `clamp(col+1, 0,
last_column)` is 10001 — the code caps the clamp with the literal 10000. -/
theorem C8_counterexample :
    wideRow.length = 10002 ∧
    (iclamp ((10000 : Int) + 1) 0 ((wideRow.length : Int) - 1)).toNat
        = 10001 ∧
    ((wideGui.step (some HidEvent.Right) none).gui).item_pos = (0, 10000) ∧
    ((0 : Nat), (10000 : Nat)) ≠ ((0 : Nat), (10001 : Nat)) := by
  have he : wideRow = List.replicate 10002 (Item.Text "c") := rfl
  have hlen : wideRow.length = 10002 := by
    rw [he, List.length_replicate]
  refine ⟨hlen, ?_, ?_, by decide⟩
  · rw [hlen]
    decide
  · rw [step_right wideGui rfl,
      colMove_eq wideGui.layout wideGui.tab_pos wideTab rfl wideGui.item_pos 1]
    rw [show wideTab.item_grid[wideGui.item_pos.1]? = some wideRow from rfl]
    show ((wideGui.item_pos.1 : Nat),
      (iclamp ((wideGui.item_pos.2 : Int) + 1) 0
        (iclamp ((wideRow.length : Int) - 1) 0 10000)).toNat) = (0, 10000)
    have h2 : wideGui.item_pos.2 = 10000 := rfl
    rw [h2, hlen]
    decide

/-- C8 (amended): for every Left or Right input (when the tab index
resolves), the candidate column is the current column ±1 clamped to
`[0, min(last_column_of_current_row, 10000)]` (the code caps the upper
bound with the literal 10000) and the move always commits, falling back to
column 0 when the current row is missing or empty; items are marked dirty
unconditionally.  In particular the resulting column is always a valid
index of the current row when that row is nonempty — a row shorter than
the previous column clamps rather than failing. -/
theorem C8_col_move (g : Gui) (h : g.ignore_hid = false) (tab : Tab)
    (ht : g.layout.tabAt g.tab_pos = some tab) (e : HidEvent) (chg : Int)
    (he : (e = HidEvent.Left ∧ chg = -1) ∨ (e = HidEvent.Right ∧ chg = 1)) :
    ((g.step (some e) none).gui).item_pos =
      (g.item_pos.1,
        match tab.item_grid[g.item_pos.1]? with
        | some row =>
          (iclamp ((g.item_pos.2 : Int) + chg) 0
            (iclamp ((row.length : Int) - 1) 0 10000)).toNat
        | none => 0) ∧
    (g.step (some e) none).redraw_items = true ∧
    ((g.step (some e) none).gui).layout = g.layout ∧
    ((g.step (some e) none).gui).tab_pos = g.tab_pos ∧
    (g.step (some e) none).ret = none ∧
    (∀ row, tab.item_grid[g.item_pos.1]? = some row → 1 ≤ row.length →
      ((g.step (some e) none).gui).item_pos.2 < row.length) := by
  rcases he with ⟨rfl, rfl⟩ | ⟨rfl, rfl⟩
  · rw [step_left g h, colMove_eq g.layout g.tab_pos tab ht g.item_pos (-1)]
    refine ⟨rfl, rfl, rfl, rfl, rfl, ?_⟩
    intro row hrow hlen
    show (match tab.item_grid[g.item_pos.1]? with
      | some row =>
        (iclamp ((g.item_pos.2 : Int) + (-1)) 0
          (iclamp ((row.length : Int) - 1) 0 10000)).toNat
      | none => 0) < row.length
    rw [hrow]
    show (iclamp ((g.item_pos.2 : Int) + (-1)) 0
      (iclamp ((row.length : Int) - 1) 0 10000)).toNat < row.length
    simp only [iclamp]
    omega
  · rw [step_right g h, colMove_eq g.layout g.tab_pos tab ht g.item_pos 1]
    refine ⟨rfl, rfl, rfl, rfl, rfl, ?_⟩
    intro row hrow hlen
    show (match tab.item_grid[g.item_pos.1]? with
      | some row =>
        (iclamp ((g.item_pos.2 : Int) + 1) 0
          (iclamp ((row.length : Int) - 1) 0 10000)).toNat
      | none => 0) < row.length
    rw [hrow]
    show (iclamp ((g.item_pos.2 : Int) + 1) 0
      (iclamp ((row.length : Int) - 1) 0 10000)).toNat < row.length
    simp only [iclamp]
    omega

theorem C8_col_move_witness :
    ((demoGui.step (some HidEvent.Right) none).gui).item_pos = (0, 1) := by
  have hc := C8_col_move demoGui rfl demoTab rfl HidEvent.Right 1
    (Or.inr ⟨rfl, rfl⟩)
  rw [hc.1]
  decide

end SGui
